import Mathlib

/-!
Verification of the bariatric-surgery simulation pipeline.

Shallow embedding of the computational core of the repository:
`FEMSimulator` (services/simulation/fem_solver.py), the segmentation
pipeline (services/segmentation/segmenter.py), the risk predictor and
stapler recommender (services/ai/predictor.py), and the background-job
orchestration (api/simulations.py, api/scans.py).

Numeric values are modelled over `ℚ` (exact arithmetic standing in for
Python floats) except for the logistic-based risk scorer, which is
modelled over `ℝ` because it uses the exponential function.
Python dicts keyed by region name are modelled as `String → Option ℚ`
(partial maps with `.get`-style defaulted lookup) or as association
lists when the code iterates over `dict.items()`.
-/

namespace BariatricSim

/-- The three anatomical regions, in the order the code iterates them. -/
def regions : List String := [("fundus"), ("body"), ("antrum")]

/-- Material properties record, from `FEMSimulator.DEFAULT_PROPERTIES`. -/
structure MaterialProps where
  E : ℚ
  nu : ℚ
  yield_stress : ℚ
deriving DecidableEq

/-- `FEMSimulator.DEFAULT_PROPERTIES`: per-region elastic modulus,
Poisson ratio and yield stress (MPa). -/
def DEFAULT_PROPERTIES (r : String) : Option MaterialProps :=
  if r = ("fundus") then some ⟨5/100, 45/100, 3/10⟩
  else if r = ("body") then some ⟨6/100, 45/100, 35/100⟩
  else if r = ("antrum") then some ⟨8/100, 45/100, 4/10⟩
  else none

/-- `self.DEFAULT_PROPERTIES.get(region, {}).get("E", 0.06)`. -/
def propE (r : String) : ℚ := ((DEFAULT_PROPERTIES r).map MaterialProps.E).getD (6/100)

/-- `self.DEFAULT_PROPERTIES.get(region, {}).get("yield_stress", 0.35)`. -/
def propYield (r : String) : ℚ :=
  ((DEFAULT_PROPERTIES r).map MaterialProps.yield_stress).getD (35/100)

/-- Python `np.mean` over a list of values: sum divided by length. -/
def listMean (l : List ℚ) : ℚ := l.sum / l.length

/-- Python `max` over a nonempty list (0 on the empty list, which the
code never hits: it is applied to the three-region value lists). -/
def listMax : List ℚ → ℚ
  | [] => 0
  | x :: xs => xs.foldl max x

/-- Strain for one region (`FEMSimulator.run_simulation`, lines 88-91):
`(thickness - staple_height) / thickness` when `thickness > staple_height`,
else the over-compression floor `0.1`. -/
def regionStrain (thickness h : ℚ) : ℚ :=
  if thickness > h then (thickness - h) / thickness else 1/10

/-- Stress for one region (`FEMSimulator.run_simulation`, lines 93-95):
`E * stiffness * strain * 100`. -/
def regionStress (r : String) (thickness stiffness h : ℚ) : ℚ :=
  propE r * stiffness * regionStrain thickness h * 100

/-- One failure-zone record (`FEMSimulator._identify_failure_zones`). -/
structure FailureZone where
  region : String
  stress : ℚ
  yield_stress : ℚ
  safety_factor : ℚ
  risk_level : String
deriving DecidableEq

/-- `FEMSimulator._identify_failure_zones`: a region whose
`safety_factor = yield_stress / (stress + 0.001)` is below 1.5 is
recorded, with risk level `high` below 1.0 and `medium` otherwise. -/
def identifyFailureZones (stressPR : List (String × ℚ)) : List FailureZone :=
  stressPR.filterMap (fun p =>
    let y := propYield p.1
    let sf := y / (p.2 + 1/1000)
    if sf < 3/2 then
      some ⟨p.1, p.2, y, sf, if sf < 1 then ("high") else ("medium")⟩
    else none)

/-- `FEMSimulator._calculate_leak_probability`. -/
def calcLeakProbability (stressPR : List (String × ℚ)) (cr : ℚ) (stype : String) : ℚ :=
  let maxStress := listMax (stressPR.map Prod.snd)
  let stressFactor := min (maxStress / 50) 1
  let compressionFactor : ℚ := if cr < 1/2 then 3/10 else if cr > 9/10 then 4/10 else 1/10
  let staplerFactor : ℚ := if stype.startsWith ("linear") then 5/100 else 1/10
  let rawProb := stressFactor * (4/10) + compressionFactor * (4/10) + staplerFactor * (2/10)
  min (max rawProb (1/100)) (99/100)

/-- One stapler catalog entry: name, closed height (mm) and applicable
tissue-thickness range. -/
structure StaplerSpec where
  name : String
  height_mm : ℚ
  range_lo : ℚ
  range_hi : ℚ
deriving DecidableEq

/-- `FEMSimulator.STAPLERS`, in Python dict insertion order. -/
def STAPLERS : List StaplerSpec :=
  [⟨("linear_green"), 48/10, 2, 3⟩,
   ⟨("linear_blue"), 35/10, 15/10, 2⟩,
   ⟨("linear_gold"), 38/10, 18/10, 25/10⟩,
   ⟨("linear_white"), 25/10, 1, 15/10⟩,
   ⟨("circular"), 4, 2, 25/10⟩]

/-- `FEMSimulator._recommend_stapler`: first catalog entry whose tissue
range contains the mean thickness or whose height is within 0.5 mm of
`0.7 × mean thickness`; otherwise a thickness-banded default. -/
def femRecommendStapler (avg : ℚ) : String :=
  match STAPLERS.find? (fun s =>
      (decide (s.range_lo ≤ avg) && decide (avg ≤ s.range_hi)) ||
      decide (|s.height_mm - avg * (7/10)| < 1/2)) with
  | some s => s.name
  | none =>
    if avg > 3 then ("linear_green")
    else if avg > 2 then ("linear_gold")
    else ("linear_blue")

/-- Result record of `FEMSimulator.run_simulation`.  The per-vertex
stress visualization list (random noise, lines 146-162) and the
free-text `recommendations` list are not modelled: no claim concerns
them. -/
structure SimResult where
  max_von_mises_stress : ℚ
  max_principal_strain : ℚ
  stress_per_region : List (String × ℚ)
  strain_per_region : List (String × ℚ)
  failure_zones : List FailureZone
  leak_probability : ℚ
  recommended_stapler : String
deriving DecidableEq

/-- `FEMSimulator.run_simulation`.  Regional dict lookups use the
code's defaults (`wall_thickness.get(r, 4.0)`,
`tissue_stiffness.get(region, 0.6)`).  The second component is the
trace of values passed to `progress_callback`, in call order. -/
def runSimulation (stype : String) (h : ℚ)
    (wt ts : String → Option ℚ) : SimResult × List ℚ :=
  let ev1 : List ℚ := [2/10]
  let avg := listMean (regions.map fun r => (wt r).getD 4)
  let cr := h / avg
  let ev2 := ev1 ++ [4/10]
  let stressPR := regions.map fun r =>
    (r, regionStress r ((wt r).getD 4) ((ts r).getD (6/10)) h)
  let strainPR := regions.map fun r => (r, regionStrain ((wt r).getD 4) h)
  let ev3 := ev2 ++ [6/10]
  let ev4 := ev3 ++ [8/10]
  let fzs := identifyFailureZones stressPR
  let leak := calcLeakProbability stressPR cr stype
  let recStapler := femRecommendStapler avg
  let ev5 := ev4 ++ [1]
  (⟨listMax (stressPR.map Prod.snd), listMax (strainPR.map Prod.snd),
    stressPR, strainPR, fzs, leak, recStapler⟩, ev5)

/-! ## Segmentation pipeline (services/segmentation/segmenter.py) -/

/-- One entry of the region dict built by `identify_stomach_regions`. -/
structure RegionInfo where
  z_lo : ℤ
  z_hi : ℤ
  volume_percent : ℕ
  description : String
deriving DecidableEq

/-- `identify_stomach_regions`: the mask is reduced to the z-coordinates
of its nonzero voxels.  An empty mask yields the empty dict (`return {}`,
line 296).  Otherwise the z-extent is split at 30% and 70% (truncated to
int; all quantities are nonnegative, so `int` truncation is `⌊·⌋`). -/
def identifyStomachRegions (zs : List ℕ) : List (String × RegionInfo) :=
  match zs with
  | [] => []
  | z :: rest =>
    let zmin : ℕ := rest.foldl min z
    let zmax : ℕ := rest.foldl max z
    let zr : ℚ := (zmax : ℚ) - (zmin : ℚ)
    let fz : ℤ := ⌊(zmin : ℚ) + zr * (3/10)⌋
    let bz : ℤ := ⌊(zmin : ℚ) + zr * (7/10)⌋
    [(("fundus"), ⟨(zmin : ℤ), fz, 30, ("Upper portion of stomach")⟩),
     (("body"), ⟨fz, bz, 40, ("Main central portion")⟩),
     (("antrum"), ⟨bz, (zmax : ℤ), 30, ("Lower portion near pylorus")⟩)]

/-- Exception value: a message plus whether the Python exception is an
`ImportError` (the only class `generate_mesh_from_mask` catches). -/
structure PyError where
  msg : String
  isImportErr : Bool
deriving DecidableEq

/-- Which mesh the pipeline ended up with: a marching-cubes surface or
the procedural fallback from `generate_dummy_stomach_mesh`. -/
inductive MeshSource where
  | marching
  | procedural
deriving DecidableEq

/-- Environment of the fallible external steps of `run_segmentation`:
which libraries import successfully, whether a learned model is loaded
and what mask it produces, and whether inference / file saving succeed.
A mask is abstracted to the voxel values along the dominant (z) axis. -/
structure SegEnv where
  modelMask : Option (List Bool)
  modelInferOk : Bool
  skimageOk : Bool
  scipyOk : Bool
  saveOk : Bool

/-- The synthetic fallback mask of `StomachSegmenter._generate_synthetic_mask`:
an ellipsoid centered in the volume.  The additive noise is `rand()*0.1
≤ 0.1`, so `mask + noise > 0.5` is exactly the ellipsoid: the mask is
deterministic, its center voxels are foreground and the volume corners
are background.  Modelled as a concrete profile with both values. -/
def syntheticMask : List Bool := [false, false, true, true, true, false, false]

/-- `StomachSegmenter.segment`: with no model (or a model whose
inference raises, caught at lines 83-85) the synthetic mask is used;
otherwise the model's output mask. -/
def segmentMask (env : SegEnv) : List Bool :=
  match env.modelMask with
  | none => syntheticMask
  | some m => if env.modelInferOk then m else syntheticMask

/-- z-coordinates of the nonzero voxels of a mask profile. -/
def zCoords (mask : List Bool) : List ℕ :=
  (List.range mask.length).filter (fun i => mask.getD i false)

/-- `generate_mesh_from_mask`: marching cubes at level 0.5 succeeds iff
the mask contains both foreground and background voxels (otherwise
skimage raises `ValueError: Surface level must be within volume data
range`).  Only `ImportError` (skimage missing) is caught, yielding the
procedural fallback mesh; any other exception propagates. -/
def generateMeshFromMask (env : SegEnv) (mask : List Bool) :
    Except PyError MeshSource :=
  if env.skimageOk then
    if mask.contains true && mask.contains false then
      Except.ok MeshSource.marching
    else
      Except.error ⟨("Surface level must be within volume data range"), false⟩
  else
    Except.ok MeshSource.procedural

/-- Boundary-voxel count of the 1-D mask profile (binary dilation XOR
mask): background voxels adjacent to a foreground voxel. -/
def boundaryCount (mask : List Bool) : ℕ :=
  ((List.range mask.length).filter (fun i =>
    !(mask.getD i false) &&
    (mask.getD (i + 1) false || (decide (0 < i) && mask.getD (i - 1) false)))).length

/-- Output record of `run_segmentation` (the fields the claims touch). -/
structure SegOutput where
  regions : List (String × RegionInfo)
  volume_ml : ℚ
  surface_area_cm2 : ℚ
  meshSrc : MeshSource
  savedOk : Bool
deriving DecidableEq

/-- `run_segmentation`.  The volume load (lines 131-138) and the output
saving (lines 166-171) are wrapped in bare `try/except` and absorb any
failure, so they cannot raise; `segment` likewise falls back to the
synthetic mask.  Mesh generation can raise a non-import error (see
`generateMeshFromMask`), and the `from scipy import ndimage` at line
157 is not guarded at all: a missing scipy raises `ImportError` to the
caller. -/
def runSegmentation (env : SegEnv) : Except PyError SegOutput :=
  let mask := segmentMask env
  match generateMeshFromMask env mask with
  | Except.error e => Except.error e
  | Except.ok meshSrc =>
    let regs := identifyStomachRegions (zCoords mask)
    let vol : ℚ := (mask.countP id : ℚ) * 1 / 1000
    if env.scipyOk then
      let sa : ℚ := (boundaryCount mask : ℚ) * 1 / 100
      Except.ok ⟨regs, vol, sa, meshSrc, env.saveOk⟩
    else
      Except.error ⟨("No module named scipy"), true⟩

/-! ## AI stapler recommender (services/ai/predictor.py) -/

/-- `StaplerRecommender.STAPLER_OPTIONS`, in declaration order. -/
def STAPLER_OPTIONS : List StaplerSpec :=
  [⟨("linear_white"), 25/10, 1, 15/10⟩,
   ⟨("linear_blue"), 35/10, 15/10, 2⟩,
   ⟨("linear_gold"), 38/10, 18/10, 25/10⟩,
   ⟨("linear_green"), 48/10, 2, 3⟩,
   ⟨("linear_black"), 55/10, 3, 4⟩]

/-- Distance of a candidate's height from the optimal compression
target `0.65 × mean thickness`. -/
def staplerScore (avg : ℚ) (s : StaplerSpec) : ℚ := |s.height_mm - avg * (65/100)|

/-- One iteration of the selection loop in `StaplerRecommender.recommend`:
the incumbent (initially `None` with score `inf`) is replaced exactly
when the candidate's score is strictly smaller. -/
def pickStep (avg : ℚ) (best : Option StaplerSpec) (s : StaplerSpec) :
    Option StaplerSpec :=
  match best with
  | none => some s
  | some b => if staplerScore avg s < staplerScore avg b then some s else some b

/-- The stapler chosen by `StaplerRecommender.recommend` for a given
mean thickness. -/
def recommenderPick (avg : ℚ) : Option StaplerSpec :=
  STAPLER_OPTIONS.foldl (pickStep avg) none

/-- Name of the stapler chosen by `StaplerRecommender.recommend`
(the catalog is a nonempty constant, so the pick always exists). -/
def recommenderBest (avg : ℚ) : String :=
  match recommenderPick avg with
  | some s => s.name
  | none => ("")

/-- `np.mean(list(wall_thickness.values())) if wall_thickness else 4.0`. -/
def recommenderAvg (vals : List ℚ) : ℚ := if vals = [] then 4 else listMean vals

/-! ## Leak-risk predictor (services/ai/predictor.py, LeakRiskPredictor)

Modelled over `ℝ` because the scorer uses `np.exp` and `np.std`
(a square root); the definitions in this section are noncomputable. -/

/-- `np.mean` over real values. -/
noncomputable def rMean (l : List ℝ) : ℝ := l.sum / l.length

/-- `np.std` (population standard deviation). -/
noncomputable def rStd (l : List ℝ) : ℝ :=
  Real.sqrt (rMean (l.map (fun x => (x - rMean l) ^ 2)))

/-- The seven features built by `LeakRiskPredictor._extract_features`. -/
structure RiskFeatures where
  wall_thickness_variation : ℝ
  tissue_stiffness : ℝ
  compressionRat : ℝ
  bmi : ℝ
  diabetes : ℝ
  previous_surgery : ℝ
  stapler_mismatch : ℝ

/-- `LeakRiskPredictor._extract_features`.  `thicknessVals` is
`list(wall_thickness.values())`; an empty dict is replaced by `[4.0]`.
`np.std` is only taken for more than one value.  `if patient_bmi:` is
Python-falsy for both `None` and `0.0`. -/
noncomputable def extractFeatures (thicknessVals : List ℝ) (h : ℝ)
    (patientBmi : Option ℝ) (diabetes prevSurgery : Bool) : RiskFeatures :=
  let vals := if thicknessVals = [] then [4] else thicknessVals
  let avg := rMean vals
  let std := if 1 < vals.length then rStd vals else 0
  let cr := if 0 < avg then h / avg else 1/2
  let optimalHeight := avg * (7/10)
  let mismatch := |h - optimalHeight| / optimalHeight
  let bmiFactor : ℝ :=
    match patientBmi with
    | none => 0
    | some b =>
      if b = 0 then 0
      else if b < 37/2 then 1/5
      else if b > 40 then 3/10
      else if b > 35 then 1/5
      else if b > 30 then 1/10
      else 0
  ⟨if 0 < avg then std / avg else 0, 1/10, cr, bmiFactor,
   if diabetes then 1 else 0, if prevSurgery then 1 else 0, mismatch⟩

/-- `LeakRiskPredictor.RISK_WEIGHTS`, in dict order. -/
def RISK_WEIGHTS : List (String × ℚ) :=
  [(("wall_thickness_variation"), 15/100),
   (("tissue_stiffness"), 12/100),
   (("compression_ratio"), 20/100),
   (("bmi"), 10/100),
   (("diabetes"), 15/100),
   (("previous_surgery"), 8/100),
   (("stapler_mismatch"), 20/100)]

/-- `features.get(feature, 0)`: dispatch a feature name to its value. -/
noncomputable def featureGet (f : RiskFeatures) (name : String) : ℝ :=
  if name = ("wall_thickness_variation") then f.wall_thickness_variation
  else if name = ("tissue_stiffness") then f.tissue_stiffness
  else if name = ("compression_ratio") then f.compressionRat
  else if name = ("bmi") then f.bmi
  else if name = ("diabetes") then f.diabetes
  else if name = ("previous_surgery") then f.previous_surgery
  else if name = ("stapler_mismatch") then f.stapler_mismatch
  else 0

/-- `LeakRiskPredictor._calculate_risk_score`: weighted sum over the
weight table, rescaled by `(score - 0.3) * 4`. -/
noncomputable def calcRiskScore (f : RiskFeatures) : ℝ :=
  (RISK_WEIGHTS.foldl (fun acc p => acc + featureGet f p.1 * (p.2 : ℝ)) 0 - 3/10) * 4

/-- The logistic map `1 / (1 + exp(-x))` applied in
`LeakRiskPredictor.predict`. -/
noncomputable def logistic (x : ℝ) : ℝ := 1 / (1 + Real.exp (-x))

/-- Output record of `LeakRiskPredictor.predict` (the contributing
factor strings are not modelled: no claim concerns them). -/
structure RiskOutput where
  probability : ℝ
  risk_level : String
  confidence : ℝ

/-- `LeakRiskPredictor.predict` (the `stapler_type` argument is unused
by feature extraction, exactly as in the code). -/
noncomputable def predictRisk (thicknessVals : List ℝ) (_stype : String) (h : ℝ)
    (patientBmi : Option ℝ) (diabetes prevSurgery : Bool) : RiskOutput :=
  let f := extractFeatures thicknessVals h patientBmi diabetes prevSurgery
  let p := logistic (calcRiskScore f)
  ⟨p,
   if p < 1/10 then ("low") else if p < 3/10 then ("medium") else ("high"),
   85/100⟩

/-! ## Background jobs (api/simulations.py, api/scans.py) -/

/-- The mutable per-job database fields the claims observe. -/
structure JobRecord where
  status : String
  progress : ℚ
  error_message : Option String
  hasResult : Bool
deriving DecidableEq

/-- A simulation row as created by `start_simulation`: pending, no
error, no result. -/
def initialSimJob : JobRecord := ⟨("pending"), 0, none, false⟩

/-- `run_simulation_background`: sets running/0.1, runs the simulation
(whose possible exception is the `Except.error` case), then either
persists the result row and completes, or — in the single
`except Exception` handler — sets the terminal `failed` status and
captures `str(e)` into `error_message`.  The handler re-raises nothing
and the function is total: the failure is only observable by polling. -/
def runSimulationBackground (comp : Except String (SimResult × List ℚ))
    (job : JobRecord) : JobRecord :=
  let j1 := { job with status := ("running"), progress := 1/10 }
  match comp with
  | Except.ok _ =>
    { j1 with status := ("completed"), progress := 1, hasResult := true }
  | Except.error e =>
    { j1 with status := ("failed"), error_message := some e }

/-- `process_scan_background`: processing → (DICOM step, may raise) →
segmenting → `run_segmentation` → completed; the single
`except Exception` handler sets the terminal `error` status. -/
def processScanBackground (dicomStep : Except String String) (env : SegEnv)
    (scan : JobRecord) : JobRecord :=
  let s1 := { scan with status := ("processing") }
  match dicomStep with
  | Except.error _ => { s1 with status := ("error") }
  | Except.ok _ =>
    let s2 := { s1 with status := ("segmenting") }
    match runSegmentation env with
    | Except.ok _ => { s2 with status := ("completed"), hasResult := true }
    | Except.error _ => { s2 with status := ("error") }

/-! ## Helper lemmas -/

lemma listMax_three (a b c : ℚ) : listMax [a, b, c] = max (max a b) c := rfl

lemma listMean_three (a b c : ℚ) : listMean [a, b, c] = (a + b + c) / 3 := by
  simp [listMean]
  ring_nf

lemma logistic_pos (x : ℝ) : 0 < logistic x := by
  unfold logistic
  positivity

lemma logistic_lt_one (x : ℝ) : logistic x < 1 := by
  have hx := Real.exp_pos (-x)
  rw [logistic, div_lt_one] <;> linarith

/-! ## Claim theorems -/

/-- C1: for every wall-thickness map, tissue-stiffness map, stapler type
and stapler height, the leak probability returned by the simulator
equals `clamp(0.4·stress_factor + 0.4·compression_factor +
0.2·stapler_factor, 0.01, 0.99)`, where `stress_factor = min(max
per-region stress / 50, 1)`, the compression factor is 0.3 below ratio
0.5, 0.4 above 0.9, else 0.1, and the stapler factor is 0.05 for
stapler types starting with "linear" else 0.1; the result always lies
in `[0.01, 0.99]`. -/
theorem C1_leak_probability (stype : String) (h : ℚ) (wt ts : String → Option ℚ) :
    (runSimulation stype h wt ts).1.leak_probability
      = min (max ((4/10) * min (max (max
            (regionStress ("fundus") ((wt ("fundus")).getD 4) ((ts ("fundus")).getD (6/10)) h)
            (regionStress ("body") ((wt ("body")).getD 4) ((ts ("body")).getD (6/10)) h))
            (regionStress ("antrum") ((wt ("antrum")).getD 4) ((ts ("antrum")).getD (6/10)) h)
            / 50) 1
        + (4/10) * (if h / (((wt ("fundus")).getD 4 + (wt ("body")).getD 4
              + (wt ("antrum")).getD 4) / 3) < 1/2 then (3:ℚ)/10
            else if h / (((wt ("fundus")).getD 4 + (wt ("body")).getD 4
              + (wt ("antrum")).getD 4) / 3) > 9/10 then 4/10 else 1/10)
        + (2/10) * (if stype.startsWith ("linear") then (5:ℚ)/100 else 1/10))
        (1/100)) (99/100)
    ∧ 1/100 ≤ (runSimulation stype h wt ts).1.leak_probability
    ∧ (runSimulation stype h wt ts).1.leak_probability ≤ 99/100 := by
  refine ⟨?_, ?_, ?_⟩
  · simp only [runSimulation, calcLeakProbability, regions, List.map_cons, List.map_nil]
    simp only [listMax_three, listMean_three]
    ring_nf
  · simp only [runSimulation, calcLeakProbability]
    exact le_min (le_max_right _ _) (by norm_num)
  · simp only [runSimulation, calcLeakProbability]
    exact min_le_right _ _

/-- C2: for every region in {fundus, body, antrum} the simulation
computes `strain = (thickness − staple_height)/thickness` when
`thickness > staple_height` and `0.1` otherwise, and
`stress = E(region) × stiffness(region) × strain × 100` with the fixed
elastic moduli fundus 0.05, body 0.06, antrum 0.08. -/
theorem C2_stress_strain (stype : String) (h : ℚ) (wt ts : String → Option ℚ) :
    (runSimulation stype h wt ts).1.strain_per_region =
      [(("fundus"), if (wt ("fundus")).getD 4 > h
          then ((wt ("fundus")).getD 4 - h) / (wt ("fundus")).getD 4 else 1/10),
       (("body"), if (wt ("body")).getD 4 > h
          then ((wt ("body")).getD 4 - h) / (wt ("body")).getD 4 else 1/10),
       (("antrum"), if (wt ("antrum")).getD 4 > h
          then ((wt ("antrum")).getD 4 - h) / (wt ("antrum")).getD 4 else 1/10)]
    ∧ (runSimulation stype h wt ts).1.stress_per_region =
      [(("fundus"), (5/100) * (ts ("fundus")).getD (6/10)
          * (if (wt ("fundus")).getD 4 > h
             then ((wt ("fundus")).getD 4 - h) / (wt ("fundus")).getD 4 else 1/10) * 100),
       (("body"), (6/100) * (ts ("body")).getD (6/10)
          * (if (wt ("body")).getD 4 > h
             then ((wt ("body")).getD 4 - h) / (wt ("body")).getD 4 else 1/10) * 100),
       (("antrum"), (8/100) * (ts ("antrum")).getD (6/10)
          * (if (wt ("antrum")).getD 4 > h
             then ((wt ("antrum")).getD 4 - h) / (wt ("antrum")).getD 4 else 1/10) * 100)] := by
  constructor
  · simp [runSimulation, regions, regionStrain]
  · simp [runSimulation, regions, regionStress, regionStrain, propE, DEFAULT_PROPERTIES]

/-- C3: a region appears in the failure zones exactly when
`yield_stress(region) / (stress(region) + 0.001) < 1.5`, its recorded
safety factor is that quotient, and its risk level is "high" below
safety factor 1.0 and "medium" otherwise; in particular a region with
stress 0.5 against yield stress 0.35 (body) is listed as "high". -/
theorem C3_failure_zones (stressPR : List (String × ℚ)) (z : FailureZone) :
    (z ∈ identifyFailureZones stressPR ↔
      ((z.region, z.stress) ∈ stressPR ∧
       z.yield_stress = propYield z.region ∧
       z.safety_factor = propYield z.region / (z.stress + 1/1000) ∧
       z.safety_factor < 3/2 ∧
       z.risk_level = if z.safety_factor < 1 then ("high") else ("medium")))
    ∧ identifyFailureZones [(("body"), 1/2)] =
        [⟨("body"), 1/2, 35/100, (35/100) / (1/2 + 1/1000), ("high")⟩] := by
  constructor
  · obtain ⟨zr, zs, zy, zsf, zrl⟩ := z
    simp only [identifyFailureZones, List.mem_filterMap]
    constructor
    · rintro ⟨⟨r, s⟩, hmem, hf⟩
      dsimp only at hf
      split at hf
      case isTrue hlt =>
        cases hf
        exact ⟨hmem, rfl, rfl, hlt, rfl⟩
      case isFalse => exact absurd hf (by simp)
    · rintro ⟨hmem, hy, hsf, hlt, hrl⟩
      dsimp only at hmem hy hsf hlt hrl
      refine ⟨(zr, zs), hmem, ?_⟩
      dsimp only
      rw [if_pos (hsf ▸ hlt)]
      subst hy hsf hrl
      rfl
  · have hbf : ¬ (("body") : String) = ("fundus") := by decide
    simp only [identifyFailureZones, List.filterMap_cons, List.filterMap_nil,
      propYield, DEFAULT_PROPERTIES]
    norm_num [hbf]

/-- C4: during one successful run the progress values passed to the
callback are exactly 0.2, 0.4, 0.6, 0.8, 1.0 in that order, hence
non-decreasing and terminating at exactly 1.0. -/
theorem C4_progress_trace (stype : String) (h : ℚ) (wt ts : String → Option ℚ) :
    (runSimulation stype h wt ts).2 = [2/10, 4/10, 6/10, 8/10, 1]
    ∧ List.Chain' (· ≤ ·) ((runSimulation stype h wt ts).2)
    ∧ ((runSimulation stype h wt ts).2).getLast? = some 1 := by
  refine ⟨rfl, ?_, rfl⟩
  show List.Chain' (· ≤ ·) [(2:ℚ)/10, 4/10, 6/10, 8/10, 1]
  norm_num [List.chain'_cons]

/-- C5 counterexample: on a mask with no nonzero voxel the region map
is the empty dict — it does not carry the three anatomical keys and its
volume percentages sum to 0, not 100. -/
theorem C5_counterexample :
    identifyStomachRegions [] = []
    ∧ (identifyStomachRegions []).map Prod.fst ≠ [("fundus"), ("body"), ("antrum")]
    ∧ ((identifyStomachRegions []).map (fun p => p.2.volume_percent)).sum ≠ 100 := by
  refine ⟨rfl, ?_, ?_⟩ <;> decide

/-- C5 (amended): for every mask with at least one nonzero voxel the
region map carries exactly the keys fundus, body, antrum, the declared
volume percentages (30, 40, 30) sum to 100, and the dominant-axis
extent is split with fundus on the first 30%, body on the next 40% and
antrum on the final 30% (breakpoints truncated to integers). -/
theorem C5_region_partition (z : ℕ) (rest : List ℕ) :
    identifyStomachRegions (z :: rest) =
      [(("fundus"), ⟨((rest.foldl min z : ℕ) : ℤ),
          ⌊((rest.foldl min z : ℕ) : ℚ) + (((rest.foldl max z : ℕ) : ℚ)
            - ((rest.foldl min z : ℕ) : ℚ)) * (3/10)⌋, 30, ("Upper portion of stomach")⟩),
       (("body"), ⟨⌊((rest.foldl min z : ℕ) : ℚ) + (((rest.foldl max z : ℕ) : ℚ)
            - ((rest.foldl min z : ℕ) : ℚ)) * (3/10)⌋,
          ⌊((rest.foldl min z : ℕ) : ℚ) + (((rest.foldl max z : ℕ) : ℚ)
            - ((rest.foldl min z : ℕ) : ℚ)) * (7/10)⌋, 40, ("Main central portion")⟩),
       (("antrum"), ⟨⌊((rest.foldl min z : ℕ) : ℚ) + (((rest.foldl max z : ℕ) : ℚ)
            - ((rest.foldl min z : ℕ) : ℚ)) * (7/10)⌋,
          ((rest.foldl max z : ℕ) : ℤ), 30, ("Lower portion near pylorus")⟩)]
    ∧ (identifyStomachRegions (z :: rest)).map Prod.fst = [("fundus"), ("body"), ("antrum")]
    ∧ ((identifyStomachRegions (z :: rest)).map (fun p => p.2.volume_percent)).sum = 100 := by
  refine ⟨rfl, rfl, rfl⟩

/-- C6 counterexample: with every library available except scipy
(whose surface-area-step load is not guarded by any `try`), the
segmentation pipeline raises `ImportError` to its caller instead of
degrading to synthetic data. -/
theorem C6_counterexample :
    runSegmentation ⟨none, true, true, false, true⟩ =
      Except.error ⟨("No module named scipy"), true⟩ := rfl

/-- C6 (amended): model-load, volume-load and inference failures are
absorbed via the synthetic mask, a missing meshing library falls back
to the procedural mesh, and output-save failures are absorbed, so the
pipeline returns a result whenever the scipy import succeeds and the
segmentation mask contains both foreground and background voxels; a
missing scipy (and a non-import isosurface failure) propagates. -/
theorem C6_fallbacks (env : SegEnv)
    (hscipy : env.scipyOk = true)
    (hfg : (segmentMask env).contains true = true)
    (hbg : (segmentMask env).contains false = true) :
    ∃ out, runSegmentation env = Except.ok out := by
  unfold runSegmentation generateMeshFromMask
  dsimp only
  by_cases hsk : env.skimageOk = true
  · rw [if_pos hsk, if_pos (by rw [hfg, hbg]; rfl)]
    dsimp only
    rw [if_pos hscipy]
    exact ⟨_, rfl⟩
  · rw [if_neg hsk]
    dsimp only
    rw [if_pos hscipy]
    exact ⟨_, rfl⟩

/-- C6 witness: a concrete environment with no learned model, missing
skimage and a failing output save — but scipy importable — still
returns a result. -/
theorem C6_fallbacks_witness :
    (⟨none, true, false, true, false⟩ : SegEnv).scipyOk = true
    ∧ (segmentMask ⟨none, true, false, true, false⟩).contains true = true
    ∧ (segmentMask ⟨none, true, false, true, false⟩).contains false = true
    ∧ ∃ out, runSegmentation ⟨none, true, false, true, false⟩ = Except.ok out :=
  ⟨rfl, by decide, by decide, C6_fallbacks ⟨none, true, false, true, false⟩ rfl (by decide) (by decide)⟩

/-- C7: a simulation job whose computation raises ends in the terminal
"failed" status with the exception message captured into a non-null
`error_message`, no result row is persisted (`has_results` polls
false), the handler returns normally instead of re-raising; the
analogous scan job (shown both for a DICOM-step failure and for a
segmentation failure, here the unguarded scipy import) ends in its
terminal "error" status. -/
theorem C7_job_failure (e d p : String) (env : SegEnv) (scan : JobRecord) :
    (runSimulationBackground (Except.error e) initialSimJob).status = ("failed")
    ∧ (runSimulationBackground (Except.error e) initialSimJob).error_message = some e
    ∧ (runSimulationBackground (Except.error e) initialSimJob).error_message ≠ none
    ∧ (runSimulationBackground (Except.error e) initialSimJob).hasResult = false
    ∧ (processScanBackground (Except.error d) env scan).status = ("error")
    ∧ (processScanBackground (Except.ok p) ⟨none, true, true, false, true⟩ scan).status
        = ("error") := by
  exact ⟨rfl, rfl, by simp [runSimulationBackground], rfl, rfl, rfl⟩

/-- C8: for every wall-thickness map the risk-scorer probability equals
`logistic((weighted_score − 0.3) × 4)` with the fixed weights
(thickness-variation 0.15, tissue-stiffness 0.12, compression-ratio
0.20, BMI 0.10, diabetes 0.15, previous-surgery 0.08, stapler-mismatch
0.20); the probability lies strictly in (0, 1), and the risk level is
"low" below 0.1, "medium" below 0.3, else "high". -/
theorem C8_risk_scorer (tv : List ℝ) (stype : String) (h : ℝ)
    (patientBmi : Option ℝ) (dia prev : Bool) :
    (predictRisk tv stype h patientBmi dia prev).probability = logistic
      (((extractFeatures tv h patientBmi dia prev).wall_thickness_variation * (15/100)
        + (extractFeatures tv h patientBmi dia prev).tissue_stiffness * (12/100)
        + (extractFeatures tv h patientBmi dia prev).compressionRat * (20/100)
        + (extractFeatures tv h patientBmi dia prev).bmi * (10/100)
        + (extractFeatures tv h patientBmi dia prev).diabetes * (15/100)
        + (extractFeatures tv h patientBmi dia prev).previous_surgery * (8/100)
        + (extractFeatures tv h patientBmi dia prev).stapler_mismatch * (20/100)
        - 3/10) * 4)
    ∧ 0 < (predictRisk tv stype h patientBmi dia prev).probability
    ∧ (predictRisk tv stype h patientBmi dia prev).probability < 1
    ∧ (predictRisk tv stype h patientBmi dia prev).risk_level =
        (if (predictRisk tv stype h patientBmi dia prev).probability < 1/10 then ("low")
         else if (predictRisk tv stype h patientBmi dia prev).probability < 3/10
         then ("medium") else ("high")) := by
  refine ⟨?_, ?_, ?_, ?_⟩
  · show logistic (calcRiskScore (extractFeatures tv h patientBmi dia prev)) = _
    congr 1
    unfold calcRiskScore RISK_WEIGHTS featureGet
    simp only [List.foldl_cons, List.foldl_nil]
    simp
  · exact logistic_pos _
  · exact logistic_lt_one _
  · rfl

/-- C9 counterexample: at mean wall thickness 3.0 mm the simulator's
`recommended_stapler` is "linear_green" (the first catalog entry whose
tissue range contains 3.0) while the DeviceRecommender's
minimize-`|height − 0.65×mean|` rule picks "linear_white": the two
rules disagree. -/
theorem C9_counterexample :
    (runSimulation ("linear_blue") (7/2) (fun _ => some 3) (fun _ => some (6/10))).1.recommended_stapler
      = ("linear_green")
    ∧ recommenderBest (recommenderAvg [3, 3, 3]) = ("linear_white")
    ∧ (runSimulation ("linear_blue") (7/2) (fun _ => some 3) (fun _ => some (6/10))).1.recommended_stapler
      ≠ recommenderBest (recommenderAvg [3, 3, 3]) := by
  have h1 : (runSimulation ("linear_blue") (7/2) (fun _ => some 3) (fun _ => some (6/10))).1.recommended_stapler
      = ("linear_green") := by
    norm_num [runSimulation, regions, listMean, femRecommendStapler, STAPLERS,
      List.find?, abs_of_nonneg, abs_of_nonpos]
  have hne : ([3, 3, 3] : List ℚ) ≠ [] := by simp
  have havg : recommenderAvg [3, 3, 3] = 3 := by
    norm_num [recommenderAvg, listMean, hne]
  have hpick : recommenderPick 3 = some ⟨("linear_white"), 25/10, 1, 15/10⟩ := by
    norm_num [recommenderPick, STAPLER_OPTIONS, pickStep, staplerScore,
      abs_of_nonneg, abs_of_nonpos]
  have h2 : recommenderBest (recommenderAvg [3, 3, 3]) = ("linear_white") := by
    unfold recommenderBest
    rw [havg, hpick]
  refine ⟨h1, h2, ?_⟩
  rw [h1, h2]
  decide

/-- The selection loop of `StaplerRecommender.recommend` started from
an incumbent returns a candidate whose distance from the compression
target is minimal among the incumbent and the remaining candidates. -/
lemma pickFold_min (avg : ℚ) :
    ∀ (l : List StaplerSpec) (a b : StaplerSpec),
      l.foldl (pickStep avg) (some a) = some b →
      staplerScore avg b ≤ staplerScore avg a ∧
      ∀ s ∈ l, staplerScore avg b ≤ staplerScore avg s := by
  intro l
  induction l with
  | nil =>
    intro a b hab
    simp only [List.foldl_nil, Option.some.injEq] at hab
    subst hab
    exact ⟨le_refl _, by simp⟩
  | cons s t ih =>
    intro a b hab
    simp only [List.foldl_cons, pickStep] at hab
    by_cases hlt : staplerScore avg s < staplerScore avg a
    · rw [if_pos hlt] at hab
      obtain ⟨h1, h2⟩ := ih s b hab
      refine ⟨le_trans h1 (le_of_lt hlt), ?_⟩
      intro x hx
      rcases List.mem_cons.mp hx with hxs | hx'
      · exact hxs ▸ h1
      · exact h2 x hx'
    · rw [if_neg hlt] at hab
      obtain ⟨h1, h2⟩ := ih a b hab
      refine ⟨h1, ?_⟩
      intro x hx
      rcases List.mem_cons.mp hx with hxs | hx'
      · exact hxs ▸ le_trans h1 (le_of_not_lt hlt)
      · exact h2 x hx'

/-- C9 (amended): the simulation output's `recommended_stapler` follows
the simulator's own first-match catalog rule on the mean thickness, not
the DeviceRecommender rule; the DeviceRecommender pick does minimize
`|height − 0.65×mean|` over its candidates (first-declared order
winning ties); the two rules happen to agree on the spec's scenario
mean 4.1667 mm (both "linear_white") but not on every mean thickness. -/
theorem C9_recommender (stype : String) (h : ℚ) (wt ts : String → Option ℚ) :
    (runSimulation stype h wt ts).1.recommended_stapler
      = femRecommendStapler (listMean (regions.map fun r => (wt r).getD 4))
    ∧ (∀ (avg : ℚ) (b : StaplerSpec), recommenderPick avg = some b →
        ∀ s ∈ STAPLER_OPTIONS, staplerScore avg b ≤ staplerScore avg s)
    ∧ femRecommendStapler (listMean [(9:ℚ)/2, 38/10, 42/10]) = ("linear_white")
    ∧ recommenderBest (recommenderAvg [(9:ℚ)/2, 38/10, 42/10]) = ("linear_white") := by
  refine ⟨rfl, ?_, ?_, ?_⟩
  · intro avg b hb s hs
    have hb2 : List.foldl (pickStep avg)
        (some ⟨("linear_white"), 25/10, 1, 15/10⟩)
        [⟨("linear_blue"), 35/10, 15/10, 2⟩, ⟨("linear_gold"), 38/10, 18/10, 25/10⟩,
         ⟨("linear_green"), 48/10, 2, 3⟩, ⟨("linear_black"), 55/10, 3, 4⟩] = some b := hb
    obtain ⟨h1, h2⟩ := pickFold_min avg _ _ _ hb2
    unfold STAPLER_OPTIONS at hs
    rcases List.mem_cons.mp hs with hxs | hs'
    · exact hxs ▸ h1
    · exact h2 s hs'
  · norm_num [femRecommendStapler, STAPLERS, listMean, List.find?,
      abs_of_nonneg, abs_of_nonpos]
  · have havg : recommenderAvg [(9:ℚ)/2, 38/10, 42/10] = 125/30 := by
      norm_num [recommenderAvg, listMean]
      simp
    have hpick : recommenderPick (125/30) = some ⟨("linear_white"), 25/10, 1, 15/10⟩ := by
      norm_num [recommenderPick, STAPLER_OPTIONS, pickStep, staplerScore,
        abs_of_nonneg, abs_of_nonpos]
    unfold recommenderBest
    rw [havg, hpick]

/-- C9 witness for the amended theorem: concrete inputs exercising the
first-match rule, the argmin property (pick at mean 3.0 against the
"linear_black" candidate) and the scenario agreement. -/
theorem C9_recommender_witness :
    (runSimulation ("circular") 4 (fun _ => none) (fun _ => none)).1.recommended_stapler
      = femRecommendStapler (listMean (regions.map fun r => ((fun _ => (none : Option ℚ)) r).getD 4))
    ∧ recommenderPick 3 = some ⟨("linear_white"), 25/10, 1, 15/10⟩
    ∧ (⟨("linear_black"), 55/10, 3, 4⟩ : StaplerSpec) ∈ STAPLER_OPTIONS
    ∧ staplerScore 3 ⟨("linear_white"), 25/10, 1, 15/10⟩
        ≤ staplerScore 3 ⟨("linear_black"), 55/10, 3, 4⟩ := by
  obtain ⟨h1, h2, _, _⟩ := C9_recommender ("circular") 4 (fun _ => none) (fun _ => none)
  have hpick : recommenderPick 3 = some ⟨("linear_white"), 25/10, 1, 15/10⟩ := by
    norm_num [recommenderPick, STAPLER_OPTIONS, pickStep, staplerScore,
      abs_of_nonneg, abs_of_nonpos]
  have hmem : (⟨("linear_black"), 55/10, 3, 4⟩ : StaplerSpec) ∈ STAPLER_OPTIONS := by
    simp [STAPLER_OPTIONS]
  exact ⟨h1, hpick, hmem, h2 3 _ hpick _ hmem⟩

/-- C10: `run_simulation` is total over partial region maps — a missing
wall-thickness key defaults to 4.0 mm and a missing stiffness key to
0.6, so the result (including its three-region stress and strain maps)
is the same as with the defaults filled in explicitly, and every run
covers exactly the regions fundus, body, antrum. -/
theorem C10_partial_maps (stype : String) (h : ℚ) (wt ts : String → Option ℚ) :
    runSimulation stype h wt ts
      = runSimulation stype h (fun r => some ((wt r).getD 4)) (fun r => some ((ts r).getD (6/10)))
    ∧ ((runSimulation stype h wt ts).1.stress_per_region).map Prod.fst = regions
    ∧ ((runSimulation stype h wt ts).1.strain_per_region).map Prod.fst = regions
    ∧ runSimulation stype h (fun _ => none) (fun _ => none)
      = runSimulation stype h (fun _ => some 4) (fun _ => some (6/10)) := by
  refine ⟨rfl, ?_, ?_, rfl⟩ <;> simp [runSimulation, regions]

end BariatricSim
